import Mathlib

/-!
Shallow embedding of `contract-verification-migrator` (Rust).

The repository snapshot holds two parallel implementations of the migration
pipeline:

* `src/lib.rs` — the crate root that `src/main.rs` links against.  Its poller
  checks the explorer status flag (`resp.status == "0"`), its submitter has no
  already-verified detection, and its converter performs neither contract-name
  qualification nor compiler-version normalization.
* `src/verification.rs` — a refactored module (not declared in `lib.rs`).
  Its submitter detects the case-insensitive "already verified" signal, its
  converter qualifies the contract name as `<Name>.sol:<Name>` and normalizes
  the compiler version with a leading `v`, and its poller has no status-flag
  check.

Both are embedded below, in namespaces `Lib` and `Verification`.  Rust strings
are Lean `String`s; Rust string primitives (`contains`, `starts_with`,
`to_lowercase`) are modelled over the underlying character list.  The network
collaborators (fetch, submit, poll) are oracles passed explicitly.  The
`serde_json::to_string` serialization is modelled at the JSON-document level:
a request's `source` field is the JSON value that the Rust code serializes
(the serialization is injective on these documents, and no claim depends on
the concrete character stream).
-/

/-! ## Rust string primitives -/

/-- Model of Rust `str::starts_with(char)`: the first character matches. -/
def rustStartsWithChar (s : String) (c : Char) : Bool :=
  s.data.head? == some c

/-- `startsWithChars pat cs` holds when `pat` is a prefix of `cs`. -/
def startsWithChars : List Char → List Char → Bool
  | [], _ => true
  | _ :: _, [] => false
  | p :: ps, c :: cs => p == c && startsWithChars ps cs

/-- `containsChars pat cs` holds when `pat` occurs contiguously inside `cs`:
model of Rust `str::contains(&str)`. -/
def containsChars (pat : List Char) : List Char → Bool
  | [] => startsWithChars pat []
  | c :: rest => startsWithChars pat (c :: rest) || containsChars pat rest

/-- Model of Rust `str::contains(&str)` on `String`s. -/
def rustContains (s pat : String) : Bool :=
  containsChars pat.data s.data

/-- Model of Rust `str::to_lowercase()` (the sources only feed it ASCII). -/
def rustToLowercase (s : String) : String :=
  String.mk (s.data.map Char.toLower)

/-- Hex digit in lowercase, as produced by Rust `hex::encode`. -/
def hexDigitChar (n : Nat) : Char :=
  if n < 10 then Char.ofNat (48 + n) else Char.ofNat (87 + n)

/-- Model of Rust `hex::encode` over a byte list (each byte reduced mod 256). -/
def hexEncode (bytes : List Nat) : String :=
  String.mk ((bytes.map fun b => [hexDigitChar (b % 256 / 16), hexDigitChar (b % 16)]).flatten)

/-- Hexadecimal character test, as accepted by the address parser. -/
def isHexChar (c : Char) : Bool :=
  c.isDigit || (('a' ≤ c) && (c ≤ 'f')) || (('A' ≤ c) && (c ≤ 'F'))

/-- Model of `contract_address.parse::<Address>()`: an optional `0x` prefix
followed by exactly 40 hexadecimal characters.  Returns the canonical hex
part on success. -/
def parseAddress (s : String) : Option String :=
  let cs := s.data
  let hexpart := if cs.take 2 = ['0', 'x'] then cs.drop 2 else cs
  if hexpart.length = 40 && hexpart.all isHexChar then some (String.mk hexpart) else none

/-! ## JSON documents (`serde_json::Value`) -/

/-- A JSON value, the model of `serde_json::Value` for the documents this
program builds. -/
inductive Json : Type
  | null : Json
  | bool : Bool → Json
  | num : Nat → Json
  | str : String → Json
  | arr : List Json → Json
  | obj : List (String × Json) → Json
  deriving Repr

/-! ## Data model (`foundry_block_explorers` types, used fields only) -/

/-- One entry of a standard-json-input `sources` map
(`foundry_block_explorers::contract::SourceCodeEntry`). -/
structure SourceCodeEntry where
  content : String
  deriving Repr, DecidableEq

/-- `foundry_block_explorers::contract::SourceCodeLanguage`. -/
inductive SourceCodeLanguage : Type
  | Solidity : SourceCodeLanguage
  | Vyper : SourceCodeLanguage
  deriving Repr, DecidableEq

/-- `foundry_block_explorers::contract::SourceCodeMetadata`: the three source
encodings (flattened single file, full standard-json-input metadata, bare
sources map).  Rust's `HashMap` is modelled as an association list. -/
inductive SourceCodeMetadata : Type
  | SourceCode : String → SourceCodeMetadata
  | Metadata : Option SourceCodeLanguage → Option Json →
      List (String × SourceCodeEntry) → SourceCodeMetadata
  | Sources : List (String × SourceCodeEntry) → SourceCodeMetadata
  deriving Repr

/-- `SourceCodeMetadata::source_code()`: the flattened source text (the single
blob, or the concatenation of the entries' contents). -/
def SourceCodeMetadata.source_code : SourceCodeMetadata → String
  | .SourceCode s => s
  | .Metadata _ _ sources => String.join (sources.map fun p => p.2.content)
  | .Sources sources => String.join (sources.map fun p => p.2.content)

/-- `foundry_block_explorers::contract::Metadata`, restricted to the fields the
program reads (the remaining fields are never consulted). -/
structure Metadata where
  contract_name : String
  compiler_version : String
  evm_version : String
  optimization_used : Nat
  runs : Nat
  constructor_arguments : List Nat
  source_code : SourceCodeMetadata
  deriving Repr

/-- `foundry_block_explorers::verify::CodeFormat`. -/
inductive CodeFormat : Type
  | SingleFile : CodeFormat
  | StandardJsonInput : CodeFormat
  deriving Repr, DecidableEq

/-- `foundry_block_explorers::verify::VerifyContract`, the submission payload.
`source` carries the JSON document whose `serde_json::to_string` text the Rust
code sends. -/
structure VerifyContract where
  address : String
  code_format : CodeFormat
  contract_name : String
  compiler_version : String
  runs : Option String
  optimization_used : Option String
  constructor_arguments : Option String
  blockscout_constructor_arguments : Option String
  evm_version : Option String
  source : Json
  other : List (String × String)
  deriving Repr

/-- Serialization shape of `SourceCodeMetadata` (untagged serde enum): the
`SourceCode` variant is a bare string, the `Metadata` variant an object with
optional `language`, the `sources` map, and optional `settings`, the `Sources`
variant the bare map. -/
def sourceCodeMetadataToJson : SourceCodeMetadata → Json
  | .SourceCode s => .str s
  | .Metadata lang settings sources =>
      .obj ((match lang with
             | some .Solidity => [("language", Json.str "Solidity")]
             | some .Vyper => [("language", Json.str "Vyper")]
             | none => []) ++
            [("sources", .obj (sources.map fun p => (p.1, .obj [("content", Json.str p.2.content)])))] ++
            (match settings with
             | some j => [("settings", j)]
             | none => []))
  | .Sources sources =>
      .obj (sources.map fun p => (p.1, .obj [("content", Json.str p.2.content)]))

/-! ## Responses of the explorer collaborators -/

/-- The target explorer's reply to a submission
(`Response<String> \x7b message, result \x7d`). -/
structure SubmitResponse where
  message : String
  result : String
  deriving Repr, DecidableEq

/-- The target explorer's reply to a status query
(`check_contract_verification_status`). -/
structure StatusResponse where
  status : String
  result : String
  deriving Repr, DecidableEq

/-- Terminal verification outcomes (`VerificationResult` in both files). -/
inductive VerificationResult : Type
  | Success : VerificationResult
  | AlreadyVerified : VerificationResult
  deriving Repr, DecidableEq

/-- The errors (`eyre::Report` values) the pipeline can produce, tagged by
their originating site with the code's message text. -/
inductive VError : Type
  /-- `contract_address.parse()` failed. -/
  | invalidAddress : String → VError
  /-- transport failure of `contract_source_code`. -/
  | fetchTransport : String → VError
  /-- transport failure of `submit_contract_verification`. -/
  | submitTransport : String → VError
  /-- "Verification returned non-ok response: ..." with the quoted text. -/
  | nonOkResponse : String → VError
  /-- transport failure while polling, wrapped with the
  "Failed to request verification status" context. -/
  | pollTransport : String → String → VError
  /-- "Unable to verify." -/
  | unableToVerify : VError
  /-- "Contract failed to verify." (status-flag branch, `lib.rs` only). -/
  | contractFailedToVerify : VError
  /-- "Verification timed out". -/
  | timedOut : VError
  deriving Repr, DecidableEq

/-- Observable result of one pipeline run: a `Result` value, or a Rust panic
(`items[0]` on an empty vector). -/
inductive PipelineOutcome : Type
  | ok : VerificationResult → PipelineOutcome
  | err : VError → PipelineOutcome
  | panicked : String → PipelineOutcome
  deriving Repr, DecidableEq

/-- The explorer collaborators of one pipeline, as oracles: the fetch result,
the submission reply as a function of the request, and the poll reply as a
function of the submission id and the (0-based) attempt index. -/
structure Oracle where
  fetch : Except String (List Metadata)
  submit : VerifyContract → Except String SubmitResponse
  poll : String → Nat → Except String StatusResponse

/-- Result of one run of `await_contract_verification` over a poll oracle:
the returned `Result`, the number of status queries made, and the number of
inter-poll sleeps performed. -/
structure PollRun where
  result : Except VError VerificationResult
  attempts : Nat
  sleeps : Nat
  deriving Repr

/-! ## `src/verification.rs` -/

namespace Verification

/-- `VerificationRequestResponse` of `src/verification.rs`. -/
inductive VerificationRequestResponse : Type
  | Submitted : String → VerificationRequestResponse
  | AlreadyVerified : VerificationRequestResponse
  deriving Repr, DecidableEq

/-- The `settings` document built by `convert_metadata_to_verification_request`
(`src/verification.rs` lines 102-110). -/
def settingsJson (metadata : Metadata) : Json :=
  .obj [("evm_version", .str metadata.evm_version),
        ("libraries", .obj []),
        ("optimizer", .obj [("enabled", .bool (metadata.optimization_used == 1)),
                            ("runs", .num metadata.runs)]),
        ("remappings", .arr [])]

/-- Compiler-version normalization of `src/verification.rs` lines 119-125:
prepend a leading `v` when the version does not already start with one. -/
def normalize_compiler_version (compiler_version : String) : String :=
  if rustStartsWithChar compiler_version 'v' then compiler_version
  else String.mk ('v' :: compiler_version.data)

/-- `convert_metadata_to_verification_request` of `src/verification.rs`
(lines 84-141): qualify the contract name as `<Name>.sol:<Name>`, wrap a
single-file source in a standard-json-input document, pass the other
encodings through, normalize the compiler version, and parse the address. -/
def convert_metadata_to_verification_request (contract_address : String)
    (metadata : Metadata) : Except VError VerifyContract :=
  let contract_name := metadata.contract_name ++ ".sol:" ++ metadata.contract_name
  let source : Json :=
    match metadata.source_code with
    | .SourceCode _ =>
        sourceCodeMetadataToJson
          (.Metadata (some .Solidity) (some (settingsJson metadata))
            [(contract_name, ⟨metadata.source_code.source_code⟩)])
    | .Metadata _ _ _ => sourceCodeMetadataToJson metadata.source_code
    | .Sources _ => sourceCodeMetadataToJson metadata.source_code
  match parseAddress contract_address with
  | none => .error (.invalidAddress contract_address)
  | some address =>
      .ok { address := address
            code_format := .StandardJsonInput
            contract_name := contract_name
            compiler_version := normalize_compiler_version metadata.compiler_version
            runs := some (toString metadata.runs)
            optimization_used := some (toString metadata.optimization_used)
            constructor_arguments := some (hexEncode metadata.constructor_arguments)
            blockscout_constructor_arguments := some (hexEncode metadata.constructor_arguments)
            evm_version := some metadata.evm_version
            source := source
            other := [] }

/-- `send_verification_request` of `src/verification.rs` (lines 143-166),
applied to the target explorer's reply: a non-"OK" message whose result text
contains "already verified" case-insensitively is `AlreadyVerified`; any
other non-"OK" reply is an error; an "OK" reply carries the submission id. -/
def send_verification_request (response : Except String SubmitResponse) :
    Except VError VerificationRequestResponse :=
  match response with
  | .error e => .error (.submitTransport e)
  | .ok r =>
      if r.message ≠ "OK" then
        if rustContains (rustToLowercase r.result) "already verified" then
          .ok .AlreadyVerified
        else
          .error (.nonOkResponse r.result)
      else .ok (.Submitted r.result)

/-- `max_verification_status_retries` (`src/verification.rs` line 172). -/
def max_verification_status_retries : Nat := 10

/-- Seconds of the fixed inter-poll interval (`src/verification.rs` line 173). -/
def interval_secs : Nat := 10

/-- Loop body of `await_contract_verification` (`src/verification.rs` lines
174-194), recursing on the remaining iterations of `for _ in 0..10`.
`i` is the index of the next attempt, `sleeps` the sleeps performed so far.
This poller has no status-flag check. -/
def await_go (poll : Nat → Except String StatusResponse) :
    Nat → Nat → Nat → PollRun
  | i, sleeps, 0 => ⟨.error .timedOut, i, sleeps⟩
  | i, sleeps, fuel + 1 =>
    match poll i with
    | .error e =>
        ⟨.error (.pollTransport "Failed to request verification status" e), i + 1, sleeps⟩
    | .ok resp =>
        if rustContains resp.result "Unable to verify" then
          ⟨.error .unableToVerify, i + 1, sleeps⟩
        else if resp.result = "Already Verified" then
          ⟨.ok .AlreadyVerified, i + 1, sleeps⟩
        else if resp.result = "Pass - Verified" then
          ⟨.ok .Success, i + 1, sleeps⟩
        else
          await_go poll (i + 1) (sleeps + 1) fuel

/-- `await_contract_verification` of `src/verification.rs` (lines 168-196),
over the poll oracle for the submission id. -/
def await_contract_verification (id : String)
    (poll : String → Nat → Except String StatusResponse) : PollRun :=
  await_go (poll id) 0 0 max_verification_status_retries

/-- `copy_etherscan_verification_for_contract` of `src/verification.rs`
(lines 50-82): fetch, take the first record (a panic when the record list is
empty), convert, submit, and poll unless the submission already reported
`AlreadyVerified`.  Client construction from the URL configuration is assumed
to succeed.  The second component counts poll attempts. -/
def copy_etherscan_verification_for_contract (o : Oracle)
    (contract_address : String) : PipelineOutcome × Nat :=
  match parseAddress contract_address with
  | none => (.err (.invalidAddress contract_address), 0)
  | some _ =>
    match o.fetch with
    | .error e => (.err (.fetchTransport e), 0)
    | .ok items =>
      match items.head? with
      | none => (.panicked "index out of bounds: the len is 0 but the index is 0", 0)
      | some metadata =>
        match convert_metadata_to_verification_request contract_address metadata with
        | .error e => (.err e, 0)
        | .ok verification_request =>
          match send_verification_request (o.submit verification_request) with
          | .error e => (.err e, 0)
          | .ok (.Submitted id) =>
              let run := await_contract_verification id o.poll
              (match run.result with
               | .ok r => .ok r
               | .error e => .err e, run.attempts)
          | .ok .AlreadyVerified => (.ok .AlreadyVerified, 0)

end Verification

/-! ## `src/lib.rs` -/

namespace Lib

/-- The `settings` document built by `convert_metadata_to_verification_request`
(`src/lib.rs` lines 96-104). -/
def settingsJson (metadata : Metadata) : Json :=
  .obj [("evm_version", .str metadata.evm_version),
        ("libraries", .obj []),
        ("optimizer", .obj [("enabled", .bool (if metadata.optimization_used = 1 then true else false)),
                            ("runs", .num metadata.runs)]),
        ("remappings", .arr [])]

/-- `convert_metadata_to_verification_request` of `src/lib.rs` (lines 79-127):
like the `verification.rs` converter but the sources map is keyed by the bare
contract name, the contract name is not qualified, and the compiler version is
passed through unnormalized. -/
def convert_metadata_to_verification_request (contract_address : String)
    (metadata : Metadata) : Except VError VerifyContract :=
  let source : Json :=
    match metadata.source_code with
    | .SourceCode _ =>
        sourceCodeMetadataToJson
          (.Metadata (some .Solidity) (some (settingsJson metadata))
            [(metadata.contract_name, ⟨metadata.source_code.source_code⟩)])
    | .Metadata _ _ _ => sourceCodeMetadataToJson metadata.source_code
    | .Sources _ => sourceCodeMetadataToJson metadata.source_code
  match parseAddress contract_address with
  | none => .error (.invalidAddress contract_address)
  | some address =>
      .ok { address := address
            code_format := .StandardJsonInput
            contract_name := metadata.contract_name
            compiler_version := metadata.compiler_version
            runs := some (toString metadata.runs)
            optimization_used := some (toString metadata.optimization_used)
            constructor_arguments := some (hexEncode metadata.constructor_arguments)
            blockscout_constructor_arguments := some (hexEncode metadata.constructor_arguments)
            evm_version := some metadata.evm_version
            source := source
            other := [] }

/-- `send_verification_request` of `src/lib.rs` (lines 129-143): any non-"OK"
message is an error (no already-verified detection); an "OK" reply carries
the submission id. -/
def send_verification_request (response : Except String SubmitResponse) :
    Except VError String :=
  match response with
  | .error e => .error (.submitTransport e)
  | .ok r =>
      if r.message ≠ "OK" then .error (.nonOkResponse r.message)
      else .ok r.result

/-- `max_verification_status_retries` (`src/lib.rs` line 149). -/
def max_verification_status_retries : Nat := 10

/-- Seconds of the fixed inter-poll interval (`src/lib.rs` line 150). -/
def interval_secs : Nat := 10

/-- Loop body of `await_contract_verification` (`src/lib.rs` lines 151-175),
recursing on the remaining iterations of `for _ in 0..10`.  `i` is the index
of the next attempt, `sleeps` the sleeps performed so far.  The checks run in
source order: "Unable to verify" text, "Already Verified" text, failure
status flag `"0"`, "Pass - Verified" text, otherwise sleep and retry. -/
def await_go (poll : Nat → Except String StatusResponse) :
    Nat → Nat → Nat → PollRun
  | i, sleeps, 0 => ⟨.error .timedOut, i, sleeps⟩
  | i, sleeps, fuel + 1 =>
    match poll i with
    | .error e =>
        ⟨.error (.pollTransport "Failed to request verification status" e), i + 1, sleeps⟩
    | .ok resp =>
        if rustContains resp.result "Unable to verify" then
          ⟨.error .unableToVerify, i + 1, sleeps⟩
        else if resp.result = "Already Verified" then
          ⟨.ok .AlreadyVerified, i + 1, sleeps⟩
        else if resp.status = "0" then
          ⟨.error .contractFailedToVerify, i + 1, sleeps⟩
        else if resp.result = "Pass - Verified" then
          ⟨.ok .Success, i + 1, sleeps⟩
        else
          await_go poll (i + 1) (sleeps + 1) fuel

/-- `await_contract_verification` of `src/lib.rs` (lines 145-177), over the
poll oracle for the submission id. -/
def await_contract_verification (id : String)
    (poll : String → Nat → Except String StatusResponse) : PollRun :=
  await_go (poll id) 0 0 max_verification_status_retries

/-- `copy_etherscan_verification_for_contract` of `src/lib.rs` (lines 51-77):
fetch, take the first record (a panic when the record list is empty), convert,
submit, poll.  The second component counts poll attempts. -/
def copy_etherscan_verification_for_contract (o : Oracle)
    (contract_address : String) : PipelineOutcome × Nat :=
  match parseAddress contract_address with
  | none => (.err (.invalidAddress contract_address), 0)
  | some _ =>
    match o.fetch with
    | .error e => (.err (.fetchTransport e), 0)
    | .ok items =>
      match items.head? with
      | none => (.panicked "index out of bounds: the len is 0 but the index is 0", 0)
      | some metadata =>
        match convert_metadata_to_verification_request contract_address metadata with
        | .error e => (.err e, 0)
        | .ok verification_request =>
          match send_verification_request (o.submit verification_request) with
          | .error e => (.err e, 0)
          | .ok id =>
              let run := await_contract_verification id o.poll
              (match run.result with
               | .ok r => .ok r
               | .error e => .err e, run.attempts)

/-- `initialize_multi_progress` (`src/lib.rs` lines 179-187): a progress
container exists exactly when the flag is set.  The rendering handle carries
no data relevant to the results. -/
def initialize_multi_progress (progress_bar : Bool) : Option Unit :=
  if progress_bar then some () else none

/-- `initialize_progress_bar` (`src/lib.rs` lines 189-209): a spinner is
created exactly when the container exists. -/
def initialize_progress_bar (mp : Option Unit) (_contract_address : String) :
    Option Unit :=
  match mp with
  | some _ => some ()
  | none => none

/-- `update_progress_bar` (`src/lib.rs` lines 211-243): the finish message
displayed for the contract, dispatching on the pipeline's `Result` (styling
is dropped; a panicking pipeline never reaches this call). -/
def update_progress_bar (pb : Option Unit) (contract_address : String)
    (result : PipelineOutcome) : Option String :=
  match pb with
  | none => none
  | some _ =>
    match result with
    | .ok .Success => some (contract_address ++ " - Success")
    | .ok .AlreadyVerified => some (contract_address ++ " - Already Verified")
    | .err _ => some (contract_address ++ " - Error")
    | .panicked _ => none

/-- `copy_etherscan_verification` of `src/lib.rs` (lines 22-49): one pipeline
per address; `join_all` collects the futures' results in the order the tasks
were created, i.e. input order.  `oracles` gives each address its explorer
collaborators.  The `.then` continuation updates the progress bar and passes
the pipeline result through unchanged. -/
def copy_etherscan_verification (oracles : String → Oracle)
    (contract_addresses : List String) (progress_bar : Bool) :
    List PipelineOutcome :=
  let mp := initialize_multi_progress progress_bar
  contract_addresses.map fun contract_address =>
    let pb := initialize_progress_bar mp contract_address
    let result :=
      (copy_etherscan_verification_for_contract (oracles contract_address)
        contract_address).fst
    let _msg := update_progress_bar pb contract_address result
    result

end Lib

/-! ## `src/main.rs` -/

namespace Main

/-- `result.is_err()` on a pipeline `Result`. -/
def resultIsErr (r : Except VError VerificationResult) : Bool :=
  match r with
  | .error _ => true
  | .ok _ => false

/-- Exit code of `main` (`src/main.rs` lines 32-34): `std::process::exit(1)`
when any collected result is an error, and the normal exit code 0 otherwise. -/
def exit_code (results : List (Except VError VerificationResult)) : Nat :=
  if results.any resultIsErr then 1 else 0

end Main

/-! ## Test fixtures for witnesses -/

/-- A syntactically valid contract address. -/
def testAddress : String := "0xffffffffffffffffffffffffffffffffffffffff"

/-- The hex part of `testAddress`, as `parseAddress` returns it. -/
def testAddressHex : String := "ffffffffffffffffffffffffffffffffffffffff"

/-- A single-file metadata record. -/
def testMetadataSingle : Metadata :=
  { contract_name := "Foo"
    compiler_version := "0.8.0"
    evm_version := "istanbul"
    optimization_used := 1
    runs := 200
    constructor_arguments := [171, 205]
    source_code := .SourceCode "contract Foo" }

/-! ## Claim theorems -/

/-- Claim C4: the compiler-version normalization performed during conversion
prepends the leading `v` marker exactly when the version does not already
begin with it, always yields a version beginning with the marker, is
idempotent, and is what the converted request carries. -/
theorem C4_normalization_idempotent (v addr a : String) (m : Metadata)
    (hp : parseAddress addr = some a) :
    rustStartsWithChar (Verification.normalize_compiler_version v) 'v' = true ∧
    Verification.normalize_compiler_version (Verification.normalize_compiler_version v) =
      Verification.normalize_compiler_version v ∧
    (rustStartsWithChar v 'v' = true → Verification.normalize_compiler_version v = v) ∧
    (rustStartsWithChar v 'v' = false →
      Verification.normalize_compiler_version v = String.mk ('v' :: v.data)) ∧
    (Verification.convert_metadata_to_verification_request addr m).map
        (fun req => req.compiler_version) =
      .ok (Verification.normalize_compiler_version m.compiler_version) := by
  have hmk : rustStartsWithChar (String.mk ('v' :: v.data)) 'v' = true := by
    simp [rustStartsWithChar]
  have hstart : rustStartsWithChar (Verification.normalize_compiler_version v) 'v' = true := by
    by_cases h : rustStartsWithChar v 'v'
    · simp [Verification.normalize_compiler_version, h]
    · have hv : Verification.normalize_compiler_version v = String.mk ('v' :: v.data) := by
        simp [Verification.normalize_compiler_version, h]
      rw [hv]
      exact hmk
  refine ⟨hstart, ?_, ?_, ?_, ?_⟩
  · by_cases h : rustStartsWithChar v 'v'
    · simp [Verification.normalize_compiler_version, h]
    · have hv : Verification.normalize_compiler_version v = String.mk ('v' :: v.data) := by
        simp [Verification.normalize_compiler_version, h]
      rw [hv]
      simp [Verification.normalize_compiler_version, hmk]
  · intro h
    simp [Verification.normalize_compiler_version, h]
  · intro h
    simp [Verification.normalize_compiler_version, h]
  · simp only [Verification.convert_metadata_to_verification_request, hp]
    rfl

/-- Claim C4 witness: the normalized form of a concrete unmarked version
begins with the marker and normalizing twice equals normalizing once. -/
theorem C4_normalization_idempotent_witness :
    rustStartsWithChar (Verification.normalize_compiler_version "0.8.0") 'v' = true ∧
    Verification.normalize_compiler_version
        (Verification.normalize_compiler_version "0.8.0") =
      Verification.normalize_compiler_version "0.8.0" := by
  have h := C4_normalization_idempotent "0.8.0" testAddress testAddressHex
    testMetadataSingle (by rfl)
  exact ⟨h.1, h.2.1⟩

/-- Claim C5: for single-file metadata the converted request's source
document has exactly one sources entry, keyed by the contract-name key, with
the fetched content preserved byte-for-byte, and a settings block carrying
`evm_version`, empty `libraries`, `optimizer.enabled = (optimization_used
== 1)`, the `runs` count, and empty `remappings`. -/
theorem C5_single_file_conversion (addr a c : String) (m : Metadata)
    (hp : parseAddress addr = some a)
    (hsrc : m.source_code = .SourceCode c) :
    Verification.convert_metadata_to_verification_request addr m =
      .ok { address := a
            code_format := .StandardJsonInput
            contract_name := m.contract_name ++ ".sol:" ++ m.contract_name
            compiler_version :=
              Verification.normalize_compiler_version m.compiler_version
            runs := some (toString m.runs)
            optimization_used := some (toString m.optimization_used)
            constructor_arguments := some (hexEncode m.constructor_arguments)
            blockscout_constructor_arguments := some (hexEncode m.constructor_arguments)
            evm_version := some m.evm_version
            source := Json.obj
              [("language", Json.str "Solidity"),
               ("sources", Json.obj
                 [(m.contract_name ++ ".sol:" ++ m.contract_name,
                   Json.obj [("content", Json.str c)])]),
               ("settings", Json.obj
                 [("evm_version", Json.str m.evm_version),
                  ("libraries", Json.obj []),
                  ("optimizer", Json.obj
                    [("enabled", Json.bool (m.optimization_used == 1)),
                     ("runs", Json.num m.runs)]),
                  ("remappings", Json.arr [])])]
            other := [] } := by
  simp [Verification.convert_metadata_to_verification_request, hp, hsrc,
    sourceCodeMetadataToJson, Verification.settingsJson,
    SourceCodeMetadata.source_code]

/-- Claim C5 witness: conversion of a concrete single-file metadata record. -/
theorem C5_single_file_conversion_witness :
    Verification.convert_metadata_to_verification_request testAddress
        testMetadataSingle =
      .ok { address := testAddressHex
            code_format := .StandardJsonInput
            contract_name := "Foo.sol:Foo"
            compiler_version := "v0.8.0"
            runs := some "200"
            optimization_used := some "1"
            constructor_arguments := some "abcd"
            blockscout_constructor_arguments := some "abcd"
            evm_version := some "istanbul"
            source := Json.obj
              [("language", Json.str "Solidity"),
               ("sources", Json.obj
                 [("Foo.sol:Foo", Json.obj [("content", Json.str "contract Foo")])]),
               ("settings", Json.obj
                 [("evm_version", Json.str "istanbul"),
                  ("libraries", Json.obj []),
                  ("optimizer", Json.obj
                    [("enabled", Json.bool true),
                     ("runs", Json.num 200)]),
                  ("remappings", Json.arr [])])]
            other := [] } :=
  C5_single_file_conversion testAddress testAddressHex "contract Foo"
    testMetadataSingle (by rfl) (by rfl)

/-- Claim C3: a non-"OK" submission reply whose result text contains
"already verified" case-insensitively yields the `AlreadyVerified` outcome,
the pipeline returns it immediately with zero poll calls, and every other
non-"OK" reply is surfaced as a rejection error. -/
theorem C3_already_verified_short_circuit (o : Oracle) (addr a : String)
    (m : Metadata) (rest : List Metadata) (req : VerifyContract)
    (r : SubmitResponse)
    (hp : parseAddress addr = some a)
    (hf : o.fetch = .ok (m :: rest))
    (hconv : Verification.convert_metadata_to_verification_request addr m = .ok req)
    (hsub : o.submit req = .ok r)
    (hmsg : r.message ≠ "OK")
    (halready : rustContains (rustToLowercase r.result) "already verified" = true) :
    Verification.send_verification_request (.ok r) = .ok .AlreadyVerified ∧
    Verification.copy_etherscan_verification_for_contract o addr =
      (.ok .AlreadyVerified, 0) ∧
    ∀ r2 : SubmitResponse, r2.message ≠ "OK" →
      rustContains (rustToLowercase r2.result) "already verified" = false →
      Verification.send_verification_request (.ok r2) =
        .error (.nonOkResponse r2.result) := by
  have hsend : Verification.send_verification_request (.ok r) = .ok .AlreadyVerified := by
    simp [Verification.send_verification_request, hmsg, halready]
  refine ⟨hsend, ?_, ?_⟩
  · simp [Verification.copy_etherscan_verification_for_contract, hp, hf, hconv,
      hsub, hsend]
  · intro r2 hmsg2 hno
    simp [Verification.send_verification_request, hmsg2, hno]

/-- A target explorer whose submission reply reports "already verified" with
a non-"OK" message; its poll oracle records that it is never consulted. -/
def testOracleAlreadyVerified : Oracle :=
  { fetch := .ok [testMetadataSingle]
    submit := fun _ => .ok ⟨"NOTOK", "Contract source code already verified"⟩
    poll := fun _ _ => .error "poll must not be called" }

/-- Claim C3 witness: the concrete "NOTOK"/"already verified" scenario ends
in `AlreadyVerified` with zero poll attempts. -/
theorem C3_already_verified_short_circuit_witness :
    Verification.send_verification_request
        (.ok ⟨"NOTOK", "Contract source code already verified"⟩) =
      .ok .AlreadyVerified ∧
    Verification.copy_etherscan_verification_for_contract
        testOracleAlreadyVerified testAddress = (.ok .AlreadyVerified, 0) := by
  have h := C3_already_verified_short_circuit testOracleAlreadyVerified
    testAddress testAddressHex testMetadataSingle [] _
    ⟨"NOTOK", "Contract source code already verified"⟩
    (by rfl) (by rfl) (by rfl) (by rfl) (by decide) (by rfl)
  exact ⟨h.1, h.2.1⟩

/-- Claim C1: the poller's transition per poll response, in source order:
"Unable to verify" text is fatal, the "Already Verified" marker stops with
`AlreadyVerified`, the failure status flag `"0"` is fatal with the
contract-failed error, the exact "Pass - Verified" marker stops with
`Success`, and any other response stays pending, scheduling one more attempt
after one more sleep of the fixed interval. -/
theorem C1_poller_transition (poll : Nat → Except String StatusResponse)
    (i sleeps fuel : Nat) (resp : StatusResponse)
    (h : poll i = .ok resp) :
    (rustContains resp.result "Unable to verify" = true →
      Lib.await_go poll i sleeps (fuel + 1) = ⟨.error .unableToVerify, i + 1, sleeps⟩) ∧
    (rustContains resp.result "Unable to verify" = false →
      resp.result = "Already Verified" →
      Lib.await_go poll i sleeps (fuel + 1) = ⟨.ok .AlreadyVerified, i + 1, sleeps⟩) ∧
    (rustContains resp.result "Unable to verify" = false →
      resp.result ≠ "Already Verified" → resp.status = "0" →
      Lib.await_go poll i sleeps (fuel + 1) =
        ⟨.error .contractFailedToVerify, i + 1, sleeps⟩) ∧
    (rustContains resp.result "Unable to verify" = false →
      resp.result ≠ "Already Verified" → resp.status ≠ "0" →
      resp.result = "Pass - Verified" →
      Lib.await_go poll i sleeps (fuel + 1) = ⟨.ok .Success, i + 1, sleeps⟩) ∧
    (rustContains resp.result "Unable to verify" = false →
      resp.result ≠ "Already Verified" → resp.status ≠ "0" →
      resp.result ≠ "Pass - Verified" →
      Lib.await_go poll i sleeps (fuel + 1) =
        Lib.await_go poll (i + 1) (sleeps + 1) fuel) := by
  refine ⟨?_, ?_, ?_, ?_, ?_⟩
  · intro h1
    simp [Lib.await_go, h, h1]
  · intro h1 h2
    simp [Lib.await_go, h, h1, h2]
    decide
  · intro h1 h2 h3
    simp [Lib.await_go, h, h1, h2, h3]
  · intro h1 h2 h3 h4
    simp [Lib.await_go, h, h1, h2, h3, h4]
    decide
  · intro h1 h2 h3 h4
    simp [Lib.await_go, h, h1, h2, h3, h4]

/-- A poll oracle that always reports the success marker. -/
def testPollPass : Nat → Except String StatusResponse :=
  fun _ => .ok ⟨"1", "Pass - Verified"⟩

/-- Claim C1 witness: on a concrete success-marker response the poller stops
with `Success` after one attempt and no sleep. -/
theorem C1_poller_transition_witness :
    Lib.await_go testPollPass 0 0 10 = ⟨.ok .Success, 1, 0⟩ :=
  (C1_poller_transition testPollPass 0 0 9 ⟨"1", "Pass - Verified"⟩
    (by rfl)).2.2.2.1 (by rfl) (by decide) (by decide) (by rfl)

/-- A status response on which the `lib.rs` poller stays pending: none of the
four terminal checks fires. -/
def Lib.isPendingShaped (resp : StatusResponse) : Prop :=
  rustContains resp.result "Unable to verify" = false ∧
  resp.result ≠ "Already Verified" ∧
  resp.status ≠ "0" ∧
  resp.result ≠ "Pass - Verified"

/-- When every polled response up to the remaining fuel stays pending, the
`lib.rs` polling loop runs the loop to exhaustion and times out, consuming
exactly `fuel` further attempts and sleeps. -/
theorem Lib.await_go_all_pending (poll : Nat → Except String StatusResponse) :
    ∀ (fuel i sleeps : Nat),
      (∀ j, j < fuel → ∃ resp, poll (i + j) = .ok resp ∧ Lib.isPendingShaped resp) →
      Lib.await_go poll i sleeps fuel = ⟨.error .timedOut, i + fuel, sleeps + fuel⟩ := by
  intro fuel
  induction fuel with
  | zero =>
    intro i sleeps _
    simp [Lib.await_go]
  | succ n ih =>
    intro i sleeps h
    obtain ⟨resp, hok, h1, h2, h3, h4⟩ := h 0 (Nat.succ_pos n)
    rw [Nat.add_zero] at hok
    have hstep : Lib.await_go poll i sleeps (n + 1) =
        Lib.await_go poll (i + 1) (sleeps + 1) n := by
      simp [Lib.await_go, hok, h1, h2, h3, h4]
    rw [hstep, ih (i + 1) (sleeps + 1) (by
      intro j hj
      have hh := h (j + 1) (by omega)
      have harith : i + (j + 1) = i + 1 + j := by omega
      rwa [harith] at hh)]
    have ha : i + 1 + n = i + (n + 1) := by omega
    have hs : sleeps + 1 + n = sleeps + (n + 1) := by omega
    rw [ha, hs]

/-- The `lib.rs` polling loop never makes more attempts than its fuel. -/
theorem Lib.await_go_attempts_le (poll : Nat → Except String StatusResponse) :
    ∀ (fuel i sleeps : Nat), (Lib.await_go poll i sleeps fuel).attempts ≤ i + fuel := by
  intro fuel
  induction fuel with
  | zero =>
    intro i sleeps
    simp [Lib.await_go]
  | succ n ih =>
    intro i sleeps
    simp only [Lib.await_go]
    cases hok : poll i with
    | error e =>
      show i + 1 ≤ i + (n + 1)
      omega
    | ok resp =>
      repeat' split
      all_goals try (show i + 1 ≤ i + (n + 1); omega)
      have := ih (i + 1) (sleeps + 1)
      omega

/-- Claim C2: when every response of the first 10 attempts stays
pending-shaped, the poller makes exactly 10 attempts and returns the timeout
error; and on every input whatsoever the attempt count is bounded by the
retry cap of 10. -/
theorem C2_retry_bound (id : String)
    (poll : String → Nat → Except String StatusResponse)
    (h : ∀ j, j < 10 → ∃ resp, poll id j = .ok resp ∧ Lib.isPendingShaped resp) :
    (Lib.await_contract_verification id poll).result = .error .timedOut ∧
    (Lib.await_contract_verification id poll).attempts = 10 ∧
    ∀ (id2 : String) (poll2 : String → Nat → Except String StatusResponse),
      (Lib.await_contract_verification id2 poll2).attempts ≤ 10 := by
  have hrun := Lib.await_go_all_pending (poll id) 10 0 0 (by
    intro j hj
    simpa using h j hj)
  refine ⟨?_, ?_, ?_⟩
  · rw [Lib.await_contract_verification, Lib.max_verification_status_retries, hrun]
  · rw [Lib.await_contract_verification, Lib.max_verification_status_retries, hrun]
  · intro id2 poll2
    have hb := Lib.await_go_attempts_le (poll2 id2) 10 0 0
    simpa [Lib.await_contract_verification, Lib.max_verification_status_retries] using hb

/-- A poll oracle that always reports a pending-shaped status. -/
def testPollPending : String → Nat → Except String StatusResponse :=
  fun _ _ => .ok ⟨"1", "Pending in queue"⟩

/-- Claim C2 witness: the always-pending oracle times out after exactly 10
attempts. -/
theorem C2_retry_bound_witness :
    (Lib.await_contract_verification "42" testPollPending).result = .error .timedOut ∧
    (Lib.await_contract_verification "42" testPollPending).attempts = 10 := by
  have h := C2_retry_bound "42" testPollPending (by
    intro j hj
    exact ⟨⟨"1", "Pending in queue"⟩, rfl, by decide, by decide, by decide, by decide⟩)
  exact ⟨h.1, h.2.1⟩

/-- When the first `k` responses stay pending and the `k`-th status query
fails at the transport level, the `lib.rs` polling loop stops right there:
the wrapped error is returned, the failing attempt is the last one, and no
sleep follows it. -/
theorem Lib.await_go_first_error (poll : Nat → Except String StatusResponse)
    (e : String) :
    ∀ (k fuel i sleeps : Nat), k < fuel →
      (∀ j, j < k → ∃ resp, poll (i + j) = .ok resp ∧ Lib.isPendingShaped resp) →
      poll (i + k) = .error e →
      Lib.await_go poll i sleeps fuel =
        ⟨.error (.pollTransport "Failed to request verification status" e),
          i + k + 1, sleeps + k⟩ := by
  intro k
  induction k with
  | zero =>
    intro fuel i sleeps hk _ herr
    rw [Nat.add_zero] at herr
    cases fuel with
    | zero => omega
    | succ m => simp [Lib.await_go, herr]
  | succ n ih =>
    intro fuel i sleeps hk hpend herr
    cases fuel with
    | zero => omega
    | succ m =>
      obtain ⟨resp, hok, h1, h2, h3, h4⟩ := hpend 0 (Nat.succ_pos n)
      rw [Nat.add_zero] at hok
      have hstep : Lib.await_go poll i sleeps (m + 1) =
          Lib.await_go poll (i + 1) (sleeps + 1) m := by
        simp [Lib.await_go, hok, h1, h2, h3, h4]
      rw [hstep, ih m (i + 1) (sleeps + 1) (by omega) (by
        intro j hj
        have hh := hpend (j + 1) (by omega)
        have harith : i + (j + 1) = i + 1 + j := by omega
        rwa [harith] at hh) (by
        have harith : i + (n + 1) = i + 1 + n := by omega
        rwa [harith] at herr)]
      have ha : i + 1 + n + 1 = i + (n + 1) + 1 := by omega
      have hs : sleeps + 1 + n = sleeps + (n + 1) := by omega
      rw [ha, hs]

/-- Claim C7: a transport error on the `k`-th status query (after `k`
pending-shaped responses) is wrapped and returned immediately: the poller
makes exactly `k + 1` attempts, performs no sleep after the failure, and
returns the wrapped fatal error. -/
theorem C7_poll_transport_error (id : String)
    (poll : String → Nat → Except String StatusResponse) (k : Nat) (e : String)
    (hk : k < 10)
    (hpend : ∀ j, j < k → ∃ resp, poll id j = .ok resp ∧ Lib.isPendingShaped resp)
    (herr : poll id k = .error e) :
    Lib.await_contract_verification id poll =
      ⟨.error (.pollTransport "Failed to request verification status" e),
        k + 1, k⟩ := by
  have hrun := Lib.await_go_first_error (poll id) e k 10 0 0 hk (by
    intro j hj
    simpa using hpend j hj) (by simpa using herr)
  rw [Lib.await_contract_verification, Lib.max_verification_status_retries, hrun]
  simp

/-- A poll oracle pending twice and then failing at the transport level. -/
def testPollErrAtTwo : String → Nat → Except String StatusResponse :=
  fun _ j => if j < 2 then .ok ⟨"1", "Pending in queue"⟩ else .error "connection reset"

/-- Claim C7 witness: with the concrete oracle failing on the third query,
the poller stops after 3 attempts and 2 sleeps with the wrapped error. -/
theorem C7_poll_transport_error_witness :
    Lib.await_contract_verification "42" testPollErrAtTwo =
      ⟨.error (.pollTransport "Failed to request verification status"
          "connection reset"), 3, 2⟩ :=
  C7_poll_transport_error "42" testPollErrAtTwo 2 "connection reset"
    (by omega)
    (by
      intro j hj
      refine ⟨⟨"1", "Pending in queue"⟩, ?_, by decide, by decide, by decide, by decide⟩
      interval_cases j <;> rfl)
    (by rfl)

/-- Claim C6: the batch produces exactly one entry per input address, and the
`i`-th entry is the pipeline outcome of the `i`-th input address, whatever
that outcome is. -/
theorem C6_batch_one_entry_per_address (oracles : String → Oracle)
    (contract_addresses : List String) (progress_bar : Bool) :
    (Lib.copy_etherscan_verification oracles contract_addresses progress_bar).length =
        contract_addresses.length ∧
    ∀ i : Nat,
      (Lib.copy_etherscan_verification oracles contract_addresses progress_bar)[i]? =
        (contract_addresses[i]?).map fun a =>
          (Lib.copy_etherscan_verification_for_contract (oracles a) a).fst := by
  constructor
  · simp [Lib.copy_etherscan_verification]
  · intro i
    simp [Lib.copy_etherscan_verification, List.getElem?_map]

/-- Claim C9: enabling or disabling progress reporting never changes the
returned result list, for every input and every collaborator behavior. -/
theorem C9_progress_side_channel (oracles : String → Oracle)
    (contract_addresses : List String) :
    Lib.copy_etherscan_verification oracles contract_addresses true =
      Lib.copy_etherscan_verification oracles contract_addresses false := rfl

/-- Claim C8: the process exits non-zero exactly when some contract's result
is an error, and zero exactly when every contract reached a non-error
terminal outcome; `AlreadyVerified` is a non-error outcome. -/
theorem C8_exit_code (results : List (Except VError VerificationResult)) :
    (Main.exit_code results ≠ 0 ↔ ∃ r ∈ results, Main.resultIsErr r = true) ∧
    (Main.exit_code results = 0 ↔ ∀ r ∈ results, ∃ v, r = .ok v) ∧
    Main.resultIsErr (.ok .AlreadyVerified) = false := by
  refine ⟨?_, ?_, rfl⟩
  · rw [Main.exit_code]
    by_cases h : results.any Main.resultIsErr
    · rw [if_pos h]
      simp only [ne_eq, OfNat.ofNat_ne_zero, not_false_eq_true, true_iff]
      simpa [List.any_eq_true] using h
    · rw [if_neg h]
      simp only [ne_eq, not_true_eq_false, false_iff]
      simpa [List.any_eq_true] using h
  · rw [Main.exit_code]
    by_cases h : results.any Main.resultIsErr
    · rw [if_pos h]
      simp only [one_ne_zero, false_iff]
      rw [List.any_eq_true] at h
      obtain ⟨r, hr, herr⟩ := h
      intro hall
      obtain ⟨v, hv⟩ := hall r hr
      rw [hv] at herr
      exact absurd herr (by simp [Main.resultIsErr])
    · rw [if_neg h]
      simp only [true_iff]
      rw [List.any_eq_true] at h
      intro r hr
      cases r with
      | ok v => exact ⟨v, rfl⟩
      | error e => exact absurd ⟨.error e, hr, rfl⟩ h

/-- Claim C10: when the fetch succeeds with an empty record list, the
pipeline's unchecked `items[0]` indexing panics rather than producing a
`FetchError`; the fetch stage yields an error value only when the fetch call
itself fails.  Both pipeline copies behave alike. -/
theorem C10_empty_fetch_panics (o : Oracle) (addr a : String)
    (hp : parseAddress addr = some a) :
    (o.fetch = .ok [] →
      Verification.copy_etherscan_verification_for_contract o addr =
        (.panicked "index out of bounds: the len is 0 but the index is 0", 0) ∧
      Lib.copy_etherscan_verification_for_contract o addr =
        (.panicked "index out of bounds: the len is 0 but the index is 0", 0)) ∧
    ∀ e : String, o.fetch = .error e →
      Verification.copy_etherscan_verification_for_contract o addr =
        (.err (.fetchTransport e), 0) ∧
      Lib.copy_etherscan_verification_for_contract o addr =
        (.err (.fetchTransport e), 0) := by
  constructor
  · intro hf
    constructor
    · simp [Verification.copy_etherscan_verification_for_contract, hp, hf]
    · simp [Lib.copy_etherscan_verification_for_contract, hp, hf]
  · intro e hf
    constructor
    · simp [Verification.copy_etherscan_verification_for_contract, hp, hf]
    · simp [Lib.copy_etherscan_verification_for_contract, hp, hf]

/-- A source explorer whose fetch succeeds with an empty record list. -/
def testOracleEmptyFetch : Oracle :=
  { fetch := .ok []
    submit := fun _ => .error "submit must not be reached"
    poll := fun _ _ => .error "poll must not be reached" }

/-- Claim C10 witness: the concrete empty-fetch oracle makes both pipeline
copies panic on the first-record selection. -/
theorem C10_empty_fetch_panics_witness :
    Verification.copy_etherscan_verification_for_contract testOracleEmptyFetch
        testAddress =
      (.panicked "index out of bounds: the len is 0 but the index is 0", 0) ∧
    Lib.copy_etherscan_verification_for_contract testOracleEmptyFetch
        testAddress =
      (.panicked "index out of bounds: the len is 0 but the index is 0", 0) :=
  (C10_empty_fetch_panics testOracleEmptyFetch testAddress testAddressHex
    (by rfl)).1 (by rfl)

/-- Claim C6 witness: a concrete two-address batch has two entries and its
first entry is the first address's pipeline outcome. -/
theorem C6_batch_one_entry_per_address_witness :
    (Lib.copy_etherscan_verification (fun _ => testOracleEmptyFetch)
        [testAddress, "bad-address"] true).length = 2 ∧
    (Lib.copy_etherscan_verification (fun _ => testOracleEmptyFetch)
        [testAddress, "bad-address"] true)[0]? =
      some (Lib.copy_etherscan_verification_for_contract testOracleEmptyFetch
        testAddress).fst :=
  ⟨(C6_batch_one_entry_per_address (fun _ => testOracleEmptyFetch)
      [testAddress, "bad-address"] true).1,
   (C6_batch_one_entry_per_address (fun _ => testOracleEmptyFetch)
      [testAddress, "bad-address"] true).2 0⟩

/-- Claim C8 witness: a batch whose only outcome is `AlreadyVerified` exits
zero, and a batch containing an error exits non-zero. -/
theorem C8_exit_code_witness :
    Main.exit_code [.ok .AlreadyVerified] = 0 ∧
    Main.exit_code [.error .timedOut] ≠ 0 :=
  ⟨(C8_exit_code [.ok .AlreadyVerified]).2.1.mpr (by
      intro r hr
      rw [List.mem_singleton] at hr
      exact ⟨.AlreadyVerified, hr⟩),
   (C8_exit_code [.error .timedOut]).1.mpr
     ⟨.error .timedOut, List.mem_singleton.mpr rfl, rfl⟩⟩
